import Mathlib

/-!
Verification development for a map-visualization front-end
(`src/types/map.ts` and the `MapComponent`).

The component state and its handlers are shallowly embedded:

* `MapPoint` / `Abalone` mirror the two record interfaces; geographic
  coordinates and geometry vertices are modelled as rationals.
* `getMultiPolygonCenter` embeds the centroid helper, including its
  internal try/catch: an out-of-range index access (`polygon[0]` of a
  polygon with no rings) yields the JS value `undefined`, modelled as
  `none`; the subsequent arithmetic on it throws, which the catch turns
  into the fixed fallback coordinate, as does the explicit
  `allCoords.length === 0` check.  Rationals have no NaN, so the
  `isNaN` guard has no counterpart here.
* The `points_changes` subscription handlers, `fetchAbalones`'s state
  effects, `handleMapMove`, `handleMapClick`, the marker click and the
  popup close handlers become pure state transformers, and small event
  languages let us speak about every reachable state.
-/

namespace MapApp

/-- A geographic position, `[longitude, latitude]`. -/
abbrev Position := ℚ × ℚ

/-- A linear ring of a GeoJSON polygon: a list of positions. -/
abbrev LinearRing := List Position

/-- GeoJSON `Polygon` coordinates: a list of rings, outer ring first. -/
abbrev PolygonCoords := List LinearRing

/-- GeoJSON `MultiPolygon` coordinates: a list of polygons. -/
abbrev MultiPolygonCoords := List PolygonCoords

/-- The `MapPoint` interface of `src/types/map.ts`. -/
structure MapPoint where
  id : String
  name : String
  description : String
  coordinates : Position
  created_at : String
deriving DecidableEq

/-- The `Abalone` interface of `src/types/map.ts`. -/
structure Abalone where
  gid : Int
  id_no : Int
  sci_name : String
  presence : Int
  compiler : String
  citation : String
  geom : MultiPolygonCoords
deriving DecidableEq

/-- The fixed fallback coordinate `[-122.4, 37.8]` returned by the
centroid helper when its computation fails. -/
def fallbackCenter : Position := (-122.4, 37.8)

/-- `geom.coordinates.flatMap(polygon => polygon[0])`.  A polygon with at
least one ring contributes the positions of its outer ring; a polygon
with no rings contributes the single JS value `undefined`, modelled as
`none`. -/
def allCoords (g : MultiPolygonCoords) : List (Option Position) :=
  (g.map fun polygon =>
    match polygon.head? with
    | some ring => ring.map some
    | none => [none]).flatten

/-- The concatenation of the outer-ring vertices of every polygon of a
multi-polygon (a polygon without rings contributes nothing).  This is
the flat vertex sequence the spec's centroid formula averages over. -/
def outerRingCoords (g : MultiPolygonCoords) : List Position :=
  (g.map fun polygon => polygon.head?.getD []).flatten

/-- `getMultiPolygonCenter` of `src/types/map.ts`.  The first branch is
the explicit `allCoords.length === 0` throw; the second models the
`TypeError` raised by `coord[0]` when the reduce reaches an `undefined`
element; both are caught and yield `fallbackCenter`.  Otherwise the
sums of the two components are divided by the number of vertices. -/
def getMultiPolygonCenter (g : MultiPolygonCoords) : Position :=
  let ac := allCoords g
  if ac.length = 0 then fallbackCenter
  else if ac.any fun c => c.isNone then fallbackCenter
  else
    let coords := ac.filterMap id
    ((coords.map Prod.fst).sum / (coords.length : ℚ),
     (coords.map Prod.snd).sum / (coords.length : ℚ))

/-- `PAGE_SIZE = 100` of `src/types/map.ts`. -/
def PAGE_SIZE : Nat := 100

/-- `INSERT` branch of the `points_changes` subscription handler:
`setPoints(current => [...current, payload.new])`. -/
def applyInsert (points : List MapPoint) (p : MapPoint) : List MapPoint :=
  points ++ [p]

/-- `UPDATE` branch of the `points_changes` subscription handler:
`current.map(point => point.id === payload.new.id ? payload.new : point)`. -/
def applyUpdate (points : List MapPoint) (p : MapPoint) : List MapPoint :=
  points.map fun pt => if pt.id = p.id then p else pt

/-- `DELETE` branch of the `points_changes` subscription handler:
`current.filter(point => point.id !== payload.old.id)`. -/
def applyDelete (points : List MapPoint) (oldId : String) : List MapPoint :=
  points.filter fun pt => pt.id ≠ oldId

/-- Number of records in the collection carrying a given id. -/
def countById (points : List MapPoint) (i : String) : Nat :=
  (points.filter fun pt => pt.id = i).length

/-- The component state relevant to data loading and selection, one
field per `useState` hook of `MapComponent`. -/
structure AppState where
  points : List MapPoint
  abalones : List Abalone
  selectedPoint : Option MapPoint
  selectedAbalone : Option Abalone
  selectedCoordinates : Option Position
  error : Option String
  loading : Bool
  loadingMore : Bool
  hasMore : Bool
deriving DecidableEq

/-- The `useState` initial values of `MapComponent`. -/
def initApp : AppState :=
  { points := [], abalones := [], selectedPoint := none,
    selectedAbalone := none, selectedCoordinates := none, error := none,
    loading := true, loadingMore := false, hasMore := true }

/-- Outcome of one `supabase.range` query inside `fetchAbalones`: a
thrown/returned error, or a response with nullable `data` and nullable
`count`. -/
inductive FetchResult where
  | failure (msg : String)
  | success (data : Option (List Abalone)) (count : Option Nat)
deriving DecidableEq

/-- `count ? startIndex + PAGE_SIZE < count : false` — JS truthiness
makes both a `null` count and a zero count take the `false` branch. -/
def computeHasMore (startIndex : Nat) (count : Option Nat) : Bool :=
  match count with
  | some c => if c = 0 then false else decide (startIndex + PAGE_SIZE < c)
  | none => false

/-- State effect of `fetchAbalones(startIndex)` once its query resolves:
the `catch` branch records the error message, the `data` branch appends
the page and recomputes `hasMore`, and `finally` clears `loadingMore`
in every case. -/
def applyFetchResult (s : AppState) (startIndex : Nat) (r : FetchResult) :
    AppState :=
  match r with
  | .failure msg => { s with error := some msg, loadingMore := false }
  | .success data count =>
      match data with
      | none => { s with loadingMore := false }
      | some d =>
          { s with abalones := s.abalones ++ d,
                   hasMore := computeHasMore startIndex count,
                   loadingMore := false }

/-- `handleMapMove`: when not already loading and more data remains,
start `fetchAbalones(abalones.length)` — which first sets
`loadingMore` to `true`.  Returns the updated state and the start
index of the fetch call that was issued, if any. -/
def handleMapMove (s : AppState) : AppState × Option Nat :=
  if !s.loadingMore && s.hasMore then
    ({ s with loadingMore := true }, some s.abalones.length)
  else (s, none)

/-- The pagination sub-state of the spec, read off the component
state: `fetching` iff `loadingMore`, else `exhausted` iff `!hasMore`,
else `idle`. -/
inductive PageSub where
  | fetching
  | idle
  | exhausted
deriving DecidableEq

/-- Projects the component state onto the spec's pagination sub-state. -/
def subStateOf (s : AppState) : PageSub :=
  if s.loadingMore then .fetching
  else if s.hasMore then .idle
  else .exhausted

/-- The render function's top-level branch: `if (error) return <error
panel>` — the map (and with it the move/zoom handlers that trigger
pagination) is rendered only while `error` is null. -/
def displaysMap (s : AppState) : Bool := s.error.isNone

/-- The three selection hooks of `MapComponent`, isolated so the
selection-affecting handlers can be studied on their own. -/
structure SelState where
  selectedPoint : Option MapPoint
  selectedAbalone : Option Abalone
  selectedCoordinates : Option Position
deriving DecidableEq

/-- Selection hooks all start at `null`. -/
def initSel : SelState :=
  { selectedPoint := none, selectedAbalone := none,
    selectedCoordinates := none }

/-- The property set handed to a rendered polygon feature carries the
record's `gid`; a click event surfaces it as `feature.properties.gid`. -/
structure ClickedFeature where
  gid : Int
deriving DecidableEq

/-- `abalones.find(a => a.gid === feature.properties.gid)`. -/
def findAbalone (abalones : List Abalone) (g : Int) : Option Abalone :=
  abalones.find? fun a => decide (a.gid = g)

/-- `handleMapClick`: with a clicked feature whose gid resolves to a
loaded record, select that record with its computed center and clear
the point selection; an unresolved gid changes nothing; a click with no
features clears every selection.  (The record's `geom` field is
non-optional in the `Abalone` interface, so the `abalone.geom` truthiness
test always passes here, and `getMultiPolygonCenter` is total, so the
surrounding catch never fires.) -/
def handleMapClick (abalones : List Abalone)
    (features : List ClickedFeature) (s : SelState) : SelState :=
  match features with
  | f :: _ =>
      match findAbalone abalones f.gid with
      | some a =>
          { selectedPoint := none, selectedAbalone := some a,
            selectedCoordinates := some (getMultiPolygonCenter a.geom) }
      | none => s
  | [] =>
      { selectedPoint := none, selectedAbalone := none,
        selectedCoordinates := none }

/-- The `Marker` `onClick` handler: select the point, clear the polygon
selection and its coordinates. -/
def handleMarkerClick (p : MapPoint) (_s : SelState) : SelState :=
  { selectedPoint := some p, selectedAbalone := none,
    selectedCoordinates := none }

/-- `onClose` of the point `Popup`: clear the point selection only. -/
def handlePointPopupClose (s : SelState) : SelState :=
  { s with selectedPoint := none }

/-- `onClose` of the polygon `Popup`: clear the polygon selection and
its coordinates only. -/
def handleAbalonePopupClose (s : SelState) : SelState :=
  { s with selectedAbalone := none, selectedCoordinates := none }

/-- The selection-affecting events of `MapComponent`. -/
inductive SelEvent where
  | mapClick (abalones : List Abalone) (features : List ClickedFeature)
  | markerClick (p : MapPoint)
  | pointPopupClose
  | abalonePopupClose

/-- Dispatch of one selection-affecting event. -/
def selStep (s : SelState) (e : SelEvent) : SelState :=
  match e with
  | .mapClick ab fs => handleMapClick ab fs s
  | .markerClick p => handleMarkerClick p s
  | .pointPopupClose => handlePointPopupClose s
  | .abalonePopupClose => handleAbalonePopupClose s

/-- The selection state reached from the initial state by a sequence of
selection-affecting events. -/
def selRun (evs : List SelEvent) : SelState :=
  evs.foldl selStep initSel

/-- At most one kind of selection is set. -/
def mutexSel (s : SelState) : Prop :=
  ¬(s.selectedPoint.isSome = true ∧ s.selectedAbalone.isSome = true)

/-- The component together with the multiset of polygon-page fetches
currently in flight (each remembered by its start index). -/
structure SysState where
  app : AppState
  pending : List Nat
deriving DecidableEq

/-- Pagination-relevant events: a viewport move/zoom end, or the
completion of the oldest in-flight fetch with some result. -/
inductive SysEvent where
  | move
  | complete (r : FetchResult)

/-- One pagination-relevant step: `move` runs `handleMapMove` and, when
a fetch was issued, records it as in flight; `complete` resolves the
oldest in-flight fetch through `applyFetchResult`. -/
def sysStep (σ : SysState) (e : SysEvent) : SysState :=
  match e with
  | .move =>
      match handleMapMove σ.app with
      | (a, some idx) => { app := a, pending := σ.pending ++ [idx] }
      | (a, none) => { app := a, pending := σ.pending }
  | .complete r =>
      match σ.pending with
      | [] => σ
      | idx :: rest => { app := applyFetchResult σ.app idx r, pending := rest }

/-- Initially nothing is in flight. -/
def initSys : SysState := { app := initApp, pending := [] }

/-- The system state reached from the initial state by a sequence of
pagination-relevant events. -/
def sysRun (evs : List SysEvent) : SysState :=
  evs.foldl sysStep initSys

/-- The single-flight invariant: a fetch is in flight exactly while
`loadingMore` is set, and never more than one. -/
def singleFlight (σ : SysState) : Prop :=
  (σ.app.loadingMore = true ∧ σ.pending.length = 1) ∨
  (σ.app.loadingMore = false ∧ σ.pending = [])

/-- Concrete point record used in witnesses and counterexamples. -/
def p1ex : MapPoint :=
  { id := "p1", name := "Point One", description := "first marker",
    coordinates := (0, 0), created_at := "2025-01-01" }

/-- A second concrete point record, with a different id. -/
def p2ex : MapPoint :=
  { id := "p2", name := "Point Two", description := "second marker",
    coordinates := (1, 1), created_at := "2025-01-02" }

/-- A record carrying the same id as `p2ex` but different content, as
delivered by an update notification for that id. -/
def p3ex : MapPoint :=
  { id := "p2", name := "Point Two Renamed", description := "edited",
    coordinates := (2, 2), created_at := "2025-01-02" }

/-- Concrete polygon record used in witnesses and counterexamples. -/
def a42 : Abalone :=
  { gid := 42, id_no := 1, sci_name := "Haliotis rufescens", presence := 1,
    compiler := "c", citation := "cit",
    geom := [[[(0, 0), (2, 0), (1, 2)]]] }

/-- Two triangles, the first also carrying an inner ring, matching the
spec's two-triangle centroid scenario. -/
def twoTrianglesWithHole : MultiPolygonCoords :=
  [[[(0, 0), (2, 0), (1, 2)], [(5, 5)]], [[(4, 0), (6, 0), (5, 2)]]]

/-- A multi-polygon whose first polygon has no rings at all, next to a
well-formed triangle. -/
def ringlessPlusTriangle : MultiPolygonCoords :=
  [[], [[(0, 0), (2, 0), (1, 2)]]]

/-- A state in which a polygon-page fetch is in flight. -/
def fetchingState : AppState := { initApp with loadingMore := true }

/-- A selection state in which a point is selected. -/
def selWithPoint : SelState :=
  { selectedPoint := some p1ex, selectedAbalone := none,
    selectedCoordinates := none }

lemma allCoords_cons (p : PolygonCoords) (g : MultiPolygonCoords) :
    allCoords (p :: g) =
      (match p.head? with
       | some ring => ring.map some
       | none => [none]) ++ allCoords g := rfl

lemma outerRingCoords_cons (p : PolygonCoords) (g : MultiPolygonCoords) :
    outerRingCoords (p :: g) = p.head?.getD [] ++ outerRingCoords g := rfl

lemma allCoords_of_ne_nil (g : MultiPolygonCoords)
    (h : ∀ p ∈ g, p ≠ []) :
    allCoords g = (outerRingCoords g).map some := by
  induction g with
  | nil => rfl
  | cons p g ih =>
      have hp : p ≠ [] := h p (List.mem_cons_self p g)
      obtain ⟨r, rest, rfl⟩ := List.exists_cons_of_ne_nil hp
      rw [allCoords_cons, outerRingCoords_cons,
        ih fun q hq => h q (List.mem_cons_of_mem _ hq)]
      simp

lemma allCoords_all_none_of_outer_nil (g : MultiPolygonCoords)
    (h : outerRingCoords g = []) : ∀ c ∈ allCoords g, c = none := by
  induction g with
  | nil => simp [allCoords]
  | cons p g ih =>
      rw [outerRingCoords_cons, List.append_eq_nil] at h
      intro c hc
      rw [allCoords_cons] at hc
      rcases List.mem_append.mp hc with hc | hc
      · cases hr : p.head? with
        | none => simpa [hr] using hc
        | some ring =>
            rw [hr] at hc
            have : ring = [] := by simpa [hr] using h.1
            subst this
            simp at hc
      · exact ih h.2 c hc

/-- C7 (amended): when every polygon of the multi-polygon has at least
one ring and the concatenated outer-ring vertex sequence is non-empty,
`getMultiPolygonCenter` returns exactly the arithmetic mean of the
longitudes and of the latitudes of those vertices, inner rings
ignored. -/
theorem C7_centroid (g : MultiPolygonCoords)
    (hpoly : ∀ p ∈ g, p ≠ []) (hne : outerRingCoords g ≠ []) :
    getMultiPolygonCenter g =
      (((outerRingCoords g).map Prod.fst).sum /
         ((outerRingCoords g).length : ℚ),
       ((outerRingCoords g).map Prod.snd).sum /
         ((outerRingCoords g).length : ℚ)) := by
  have hac := allCoords_of_ne_nil g hpoly
  unfold getMultiPolygonCenter
  rw [hac]
  have hlen : ((outerRingCoords g).map some).length ≠ 0 := by
    simpa using fun hemp => hne (List.eq_nil_of_length_eq_zero hemp)
  rw [if_neg hlen]
  have hany : ((outerRingCoords g).map some).any (fun c => c.isNone) = false := by
    rw [List.any_eq_false]
    intro c hc
    rcases List.mem_map.mp hc with ⟨x, _, rfl⟩
    simp
  rw [hany]
  simp [List.filterMap_map, Function.comp]

/-- C7 witness: the concrete two-triangle multi-polygon (one inner
ring present) satisfies the amended centroid formula. -/
theorem C7_centroid_witness :
    getMultiPolygonCenter twoTrianglesWithHole =
      (((outerRingCoords twoTrianglesWithHole).map Prod.fst).sum /
         ((outerRingCoords twoTrianglesWithHole).length : ℚ),
       ((outerRingCoords twoTrianglesWithHole).map Prod.snd).sum /
         ((outerRingCoords twoTrianglesWithHole).length : ℚ)) :=
  C7_centroid twoTrianglesWithHole (by decide) (by decide)

/-- C7 counterexample: a multi-polygon whose first polygon has no
rings still has three vertices across the outer rings of its polygons,
yet `getMultiPolygonCenter` returns the fallback coordinate instead of
their mean (`polygon[0]` is `undefined` there, the reduce throws, and
the catch yields the fallback). -/
theorem C7_counterexample :
    getMultiPolygonCenter ringlessPlusTriangle = fallbackCenter ∧
    fallbackCenter ≠
      (((outerRingCoords ringlessPlusTriangle).map Prod.fst).sum /
         ((outerRingCoords ringlessPlusTriangle).length : ℚ),
       ((outerRingCoords ringlessPlusTriangle).map Prod.snd).sum /
         ((outerRingCoords ringlessPlusTriangle).length : ℚ)) := by
  constructor
  · rfl
  · simp only [outerRingCoords, ringlessPlusTriangle, fallbackCenter,
      Prod.ext_iff, List.flatten, List.map, not_and]
    intro h
    norm_num at h

/-- C8: on a degenerate multi-polygon — one with no outer-ring
vertices at all, covering the empty multi-polygon, polygons without
rings and empty outer rings — `getMultiPolygonCenter` returns the
fixed fallback coordinate; being a total Lean function it never
raises, every throwing path of the source having been mapped into its
catch branch. -/
theorem C8_fallback (g : MultiPolygonCoords)
    (h : outerRingCoords g = []) :
    getMultiPolygonCenter g = fallbackCenter := by
  unfold getMultiPolygonCenter
  cases hac : allCoords g with
  | nil => simp [hac]
  | cons c cs =>
      have hcnone : c = none := by
        apply allCoords_all_none_of_outer_nil g h
        rw [hac]
        exact List.mem_cons_self c cs
      subst hcnone
      simp [hac]

/-- C8 witness: a multi-polygon consisting of one polygon with no
rings yields the fallback coordinate. -/
theorem C8_fallback_witness :
    getMultiPolygonCenter ([[]] : MultiPolygonCoords) = fallbackCenter :=
  C8_fallback [[]] rfl

/-- C1 counterexample: delivering an insert notification for an id
that is already present does not update in place — the record is
appended again, the collection grows and the id is duplicated. -/
theorem C1_counterexample :
    countById [p1ex] p1ex.id = 1 ∧
    (applyInsert [p1ex] p1ex).length = 2 ∧
    countById (applyInsert [p1ex] p1ex) p1ex.id = 2 := by
  decide

/-- C1 (amended): the insert handler appends unconditionally — the
length always grows by one, the count of records carrying the inserted
id always grows by one (so a duplicate id appears whenever the id was
already present), and records with other ids are untouched. -/
theorem C1_insertAppends (pts : List MapPoint) (p : MapPoint) :
    (applyInsert pts p).length = pts.length + 1 ∧
    countById (applyInsert pts p) p.id = countById pts p.id + 1 ∧
    ∀ i, i ≠ p.id → countById (applyInsert pts p) i = countById pts i := by
  refine ⟨by simp [applyInsert], ?_, ?_⟩
  · simp [applyInsert, countById, List.filter_append]
  · intro i hi
    simp [applyInsert, countById, List.filter_append, Ne.symm hi]

/-- C1 witness: inserting `p1ex` leaves the count of an unrelated id
unchanged. -/
theorem C1_insertAppends_witness :
    countById (applyInsert [p1ex] p1ex) "p2" = countById [p1ex] "p2" :=
  (C1_insertAppends [p1ex] p1ex).2.2 "p2" (by decide)

/-- C4 counterexample: delivering an update notification for an id
that is absent does not append the record — the collection stays
empty. -/
theorem C4_counterexample :
    applyUpdate ([] : List MapPoint) p1ex = [] ∧
    p1ex ∉ applyUpdate ([] : List MapPoint) p1ex := by
  decide

lemma applyUpdate_of_no_match (pts : List MapPoint) (p : MapPoint)
    (h : ∀ q ∈ pts, q.id ≠ p.id) : applyUpdate pts p = pts := by
  induction pts with
  | nil => rfl
  | cons q pts ih =>
      have hq : applyUpdate pts p = pts :=
        ih fun r hr => h r (List.mem_cons_of_mem _ hr)
      simp only [applyUpdate, List.map_cons] at hq ⊢
      rw [if_neg (h q (List.mem_cons_self q pts)), hq]

/-- C4 (amended): the update handler keeps the length unchanged and
acts pointwise — at every position whose record carries the
notification's id the new record stands afterwards, and every other
position keeps exactly its old record; in particular, when no record
matches, the collection is left exactly as it was (no append). -/
theorem C4_updateReplaces (pts : List MapPoint) (p : MapPoint) :
    ((∀ q ∈ pts, q.id ≠ p.id) → applyUpdate pts p = pts) ∧
    (applyUpdate pts p).length = pts.length ∧
    (∀ i (h1 : i < (applyUpdate pts p).length) (h2 : i < pts.length),
      (applyUpdate pts p).get ⟨i, h1⟩ =
        if (pts.get ⟨i, h2⟩).id = p.id then p else pts.get ⟨i, h2⟩) := by
  refine ⟨applyUpdate_of_no_match pts p, by simp [applyUpdate], ?_⟩
  · intro i h1 h2
    simp [applyUpdate]

/-- C4 witness: updating `[p1ex, p2ex]` with a renamed record carrying
`p2ex`'s id genuinely replaces the record at position 1 (the results
differ), while updating with an id not in the collection changes
nothing. -/
theorem C4_updateReplaces_witness :
    (applyUpdate [p1ex, p2ex] p3ex).get ⟨1, by decide⟩ = p3ex ∧
    p3ex ≠ p2ex ∧
    applyUpdate [p1ex] p3ex = [p1ex] :=
  ⟨((C4_updateReplaces [p1ex, p2ex] p3ex).2.2 1 (by decide)
      (by decide)).trans (by decide),
   by decide,
   (C4_updateReplaces [p1ex] p3ex).1 (by decide)⟩

lemma loadingMore_applyFetchResult (s : AppState) (idx : Nat)
    (r : FetchResult) : (applyFetchResult s idx r).loadingMore = false := by
  cases r with
  | failure msg => rfl
  | success data count => cases data <;> rfl

/-- C2 counterexample: a successful fetch whose response has an
unknown (`null`) total count and a non-empty page leaves the sub-state
`exhausted`, where the claim requires `idle` (JS truthiness sends a
null `count` to the `false` branch of `count ? … : false`). -/
theorem C2_counterexample :
    subStateOf (applyFetchResult fetchingState 0
      (FetchResult.success (some [a42]) none)) = PageSub.exhausted := by
  rfl

/-- C2 (amended): after a successful fetch that returns a page, the
sub-state is `idle` exactly when the total count is known, positive,
and offset + page size is strictly below it; in every other case —
including an unknown or zero total count, and regardless of whether
the page is empty — the sub-state is `exhausted`. -/
theorem C2_pagination (s : AppState) (idx : Nat) (d : List Abalone)
    (c : Option Nat) :
    subStateOf (applyFetchResult s idx (FetchResult.success (some d) c)) =
      match c with
      | some n =>
          if 0 < n ∧ idx + PAGE_SIZE < n then PageSub.idle
          else PageSub.exhausted
      | none => PageSub.exhausted := by
  cases c with
  | none => rfl
  | some n =>
      simp only [applyFetchResult, subStateOf, computeHasMore]
      by_cases h0 : n = 0
      · subst h0
        simp
      · by_cases hlt : idx + PAGE_SIZE < n
        · simp [h0, hlt, Nat.pos_of_ne_zero h0]
        · simp [h0, hlt]

/-- C3 counterexample: after a failed polygon-page fetch the error is
set and the render function returns the full-screen error panel
instead of the map — the move/zoom handlers that trigger pagination
are no longer rendered, so the error does block future pagination
attempts rather than being a transient, non-blocking message. -/
theorem C3_counterexample :
    (applyFetchResult initApp 0 (FetchResult.failure "boom")).error =
      some "boom" ∧
    displaysMap (applyFetchResult initApp 0 (FetchResult.failure "boom")) =
      false := by
  constructor <;> rfl

/-- C3 (amended): a failed fetch keeps the loaded polygon collection,
returns the sub-state to `idle` (given `hasMore` held, as the fetch
guard ensures) rather than `exhausted`, and records the error message;
but the message is rendered as a full-screen panel replacing the map,
so map-driven pagination cannot be triggered afterwards. -/
theorem C3_failureKeepsData (s : AppState) (idx : Nat) (msg : String)
    (h : s.hasMore = true) :
    (applyFetchResult s idx (FetchResult.failure msg)).abalones =
      s.abalones ∧
    subStateOf (applyFetchResult s idx (FetchResult.failure msg)) =
      PageSub.idle ∧
    (applyFetchResult s idx (FetchResult.failure msg)).error = some msg ∧
    displaysMap (applyFetchResult s idx (FetchResult.failure msg)) =
      false := by
  refine ⟨rfl, ?_, rfl, rfl⟩
  simp [applyFetchResult, subStateOf, h]

/-- C3 witness: the amended failure behaviour at the initial state. -/
theorem C3_failureKeepsData_witness :
    (applyFetchResult initApp 0 (FetchResult.failure "network error")).abalones =
      initApp.abalones ∧
    subStateOf (applyFetchResult initApp 0 (FetchResult.failure "network error")) =
      PageSub.idle ∧
    (applyFetchResult initApp 0 (FetchResult.failure "network error")).error =
      some "network error" ∧
    displaysMap (applyFetchResult initApp 0 (FetchResult.failure "network error")) =
      false :=
  C3_failureKeepsData initApp 0 "network error" rfl

/-- C10: whatever the outcome of a polygon-page fetch — failure,
response without data, or a page with any count — the `finally` branch
leaves `loadingMore` false, so the completed state is never in the
`fetching` sub-state and the single-flight guard cannot stay stuck. -/
theorem C10_fetchAlwaysClears (s : AppState) (idx : Nat)
    (r : FetchResult) :
    (applyFetchResult s idx r).loadingMore = false ∧
    subStateOf (applyFetchResult s idx r) ≠ PageSub.fetching := by
  have h := loadingMore_applyFetchResult s idx r
  refine ⟨h, ?_⟩
  unfold subStateOf
  rw [h]
  by_cases hm : (applyFetchResult s idx r).hasMore <;> simp [hm]

lemma mutexSel_selStep (s : SelState) (e : SelEvent) (h : mutexSel s) :
    mutexSel (selStep s e) := by
  cases e with
  | mapClick ab fs =>
      cases fs with
      | nil =>
          rintro ⟨h1, _⟩
          simp [selStep, handleMapClick] at h1
      | cons f rest =>
          simp only [selStep, handleMapClick]
          cases hfind : findAbalone ab f.gid with
          | some a =>
              rintro ⟨h1, _⟩
              simp at h1
          | none => exact h
  | markerClick p =>
      rintro ⟨_, h2⟩
      simp [selStep, handleMarkerClick] at h2
  | pointPopupClose =>
      rintro ⟨h1, _⟩
      simp [selStep, handlePointPopupClose] at h1
  | abalonePopupClose =>
      rintro ⟨_, h2⟩
      simp [selStep, handleAbalonePopupClose] at h2

lemma mutexSel_foldl (evs : List SelEvent) (s : SelState)
    (h : mutexSel s) : mutexSel (evs.foldl selStep s) := by
  induction evs generalizing s with
  | nil => exact h
  | cons e evs ih => exact ih (selStep s e) (mutexSel_selStep s e h)

/-- C5: in every state reachable from the initial one through the
selection-affecting handlers — map clicks, marker clicks and the two
popup-close handlers — a point selection and a polygon selection are
never set at the same time. -/
theorem C5_selectionMutex (evs : List SelEvent) :
    mutexSel (selRun evs) := by
  apply mutexSel_foldl
  rintro ⟨h1, _⟩
  simp [initSel] at h1

/-- C6: `handleMapMove` performs no fetch call and leaves the state
unchanged while a fetch is loading (`fetching`) or no more data
remains (`exhausted`); consequently, along every event sequence of
viewport moves and fetch completions, at most one polygon-page fetch
is in flight. -/
theorem C6_singleFlight :
    (∀ s : AppState, s.loadingMore = true ∨ s.hasMore = false →
      handleMapMove s = (s, none)) ∧
    (∀ evs : List SysEvent, (sysRun evs).pending.length ≤ 1) := by
  constructor
  · intro s h
    unfold handleMapMove
    rcases h with h | h <;> simp [h]
  · intro evs
    have hstep : ∀ σ e, singleFlight σ → singleFlight (sysStep σ e) := by
      intro σ e hσ
      cases e with
      | move =>
          rcases hσ with ⟨hl, hp⟩ | ⟨hl, hp⟩
          · simp only [sysStep, handleMapMove, hl]
            exact Or.inl ⟨hl, by simpa using hp⟩
          · by_cases hm : σ.app.hasMore
            · simp only [sysStep, handleMapMove, hl, hm]
              refine Or.inl ⟨rfl, ?_⟩
              simp [hp]
            · simp only [sysStep, handleMapMove, hl]
              rw [if_neg (by simp [hm])]
              exact Or.inr ⟨hl, hp⟩
      | complete r =>
          rcases hσ with ⟨hl, hp⟩ | ⟨hl, hp⟩
          · obtain ⟨idx, hidx⟩ := List.length_eq_one.mp hp
            simp only [sysStep, hidx]
            exact Or.inr ⟨loadingMore_applyFetchResult _ _ _, rfl⟩
          · simp only [sysStep, hp]
            exact Or.inr ⟨hl, hp⟩
    have hrun : singleFlight (sysRun evs) := by
      unfold sysRun
      have : ∀ σ, singleFlight σ →
          singleFlight (evs.foldl sysStep σ) := by
        induction evs with
        | nil => exact fun σ hσ => hσ
        | cons e evs ih => exact fun σ hσ => ih (sysStep σ e) (hstep σ e hσ)
      exact this initSys (Or.inr ⟨rfl, rfl⟩)
    rcases hrun with ⟨_, hp⟩ | ⟨_, hp⟩
    · exact hp.le
    · simp [hp]

/-- C6 witness: a move event during an in-flight fetch changes
nothing and issues no fetch, and after two consecutive move events at
most one fetch is pending. -/
theorem C6_singleFlight_witness :
    handleMapMove fetchingState = (fetchingState, none) ∧
    (sysRun [SysEvent.move, SysEvent.move]).pending.length ≤ 1 :=
  ⟨C6_singleFlight.1 fetchingState (Or.inl rfl),
   C6_singleFlight.2 [SysEvent.move, SysEvent.move]⟩

/-- C9: clicking a polygon feature whose gid is not in the loaded
collection leaves the selection state unchanged; clicking one whose
gid is found selects that record, anchors the popup at the centroid
helper's result for its geometry, and clears any point selection. -/
theorem C9_selectPolygon (abalones : List Abalone) (f : ClickedFeature)
    (rest : List ClickedFeature) (s : SelState) :
    (findAbalone abalones f.gid = none →
      handleMapClick abalones (f :: rest) s = s) ∧
    (∀ a, findAbalone abalones f.gid = some a →
      handleMapClick abalones (f :: rest) s =
        { selectedPoint := none, selectedAbalone := some a,
          selectedCoordinates := some (getMultiPolygonCenter a.geom) }) := by
  constructor
  · intro h
    simp [handleMapClick, h]
  · intro a h
    simp [handleMapClick, h]

/-- C9 witness: with only the record of gid 42 loaded and a point
selected, clicking gid 7 changes nothing, and clicking gid 42 selects
that record with its computed anchor and clears the point. -/
theorem C9_selectPolygon_witness :
    handleMapClick [a42] [{ gid := 7 }] selWithPoint = selWithPoint ∧
    handleMapClick [a42] [{ gid := 42 }] selWithPoint =
      { selectedPoint := none, selectedAbalone := some a42,
        selectedCoordinates := some (getMultiPolygonCenter a42.geom) } :=
  ⟨(C9_selectPolygon [a42] { gid := 7 } [] selWithPoint).1 rfl,
   (C9_selectPolygon [a42] { gid := 42 } [] selWithPoint).2 a42 rfl⟩

end MapApp
